import Mathlib

/-!
Verification development for the Compresso repository.

The Python sources are shallowly embedded as Lean definitions:

* `src/compresso/backend/capabilities.py` — the backend registry
  (`BackendCapabilities`, `get_by_name`, `get_by_id`);
* `src/compresso/frontend/api.py` — strategy-based backend selection
  (`_choose_backend_for_strategy`);
* `src/compresso/backend/inspect.py` — container inspection (`inspect`,
  `InspectResult`);
* `src/compresso/backend/speeds.py` — the persisted speed cache
  (`update_from_benchmarks`, `get_estimated_speeds`).

Python floats are modelled as rationals, machine integers as `Nat`/`Int`,
a raised exception as the `raised` branch of `PyOutcome`, and the
filesystem as an explicit read outcome passed to the function.  A Python
`dict` built by inserting key/value pairs in order and then queried with
`get` is modelled by its lookup semantics: the value of the last insertion
with the queried key (`pyDictGetBy` below); in-place dict assignment is
modelled by `pyDictSet` on an association list.
-/

namespace Compresso

/-- Python str.lower, restricted to the ASCII range (the only one the
embedded code applies it to): lower-case every character. -/
def pyLower (s : String) : String := ⟨s.data.map Char.toLower⟩

/-- Python dict semantics for lookup after building `{key(x): x for x in xs}`:
the value of the last element whose key matches, if any. -/
def pyDictGetBy {α κ : Type} [DecidableEq κ] (key : α → κ) (xs : List α) (k : κ) :
    Option α :=
  xs.foldl (fun acc x => if key x = k then some x else acc) none

/-- Python dict assignment `d[k] = v` on an association list whose keys are
unique: replace the entry when the key is present, append it otherwise. -/
def pyDictSet {β : Type} (db : List (String × β)) (k : String) (v : β) :
    List (String × β) :=
  if db.any (fun p => p.1 = k) then
    db.map (fun p => if p.1 = k then (k, v) else p)
  else db ++ [(k, v)]

namespace Capabilities

/-- `BackendCapabilities` from `capabilities.py`: a frozen dataclass with
fields `name`, `id`, `has_buffer`, `has_stream` (and no methods). -/
structure BackendCapabilities where
  name : String
  id : Nat
  has_buffer : Bool
  has_stream : Bool
deriving Repr, DecidableEq

/-- `get_by_name` from `capabilities.py`: lookup in the `_cap_by_name` dict
built by `_load_capabilities` (`by_name[name] = cap` for each cap in order),
then `.get(name)`. -/
def get_by_name (caps : List BackendCapabilities) (name : String) :
    Option BackendCapabilities :=
  pyDictGetBy BackendCapabilities.name caps name

/-- `get_by_id` from `capabilities.py`: lookup in the `_cap_by_id` dict
built by `_load_capabilities` (`by_id[cid] = cap` for each cap in order),
then `.get(cid)`. -/
def get_by_id (caps : List BackendCapabilities) (cid : Nat) :
    Option BackendCapabilities :=
  pyDictGetBy BackendCapabilities.id caps cid

end Capabilities

open Capabilities

/-- A demonstration registry holding all six backends of the spec. -/
def allSixCaps : List BackendCapabilities :=
  [⟨"zlib", 1, true, true⟩, ⟨"bzip2", 2, true, true⟩, ⟨"lzma", 3, true, true⟩,
   ⟨"zstd", 4, true, true⟩, ⟨"lz4", 5, true, true⟩, ⟨"snappy", 6, true, true⟩]

namespace Api

/-- The `fast` preference list from `_choose_backend_for_strategy`. -/
def FAST_ORDER : List String := ["lz4", "snappy", "zstd", "zlib", "bzip2", "lzma"]

/-- The `max_ratio` preference list from `_choose_backend_for_strategy`. -/
def MAX_RATIO_ORDER : List String := ["bzip2", "lzma", "zstd", "zlib", "lz4", "snappy"]

/-- The `balanced` preference list from `_choose_backend_for_strategy`. -/
def BALANCED_ORDER : List String := ["zstd", "zlib", "bzip2", "lzma", "lz4", "snappy"]

/-- `first_available` from `api.py`: walk the name list, return the first
name found in the `by_name` dict built from the capability list. -/
def first_available (caps : List BackendCapabilities) :
    List String → Option String
  | [] => none
  | n :: rest =>
      if (pyDictGetBy BackendCapabilities.name caps n).isSome then some n
      else first_available caps rest

/-- `_choose_backend_for_strategy` from `api.py`.  The Python argument may be
`None`; `strategy or "balanced"` replaces a falsy value (None or the empty
string) by "balanced" before lowercasing. -/
def choose_backend_for_strategy (caps : List BackendCapabilities)
    (strategy : Option String) : Option String :=
  let s := pyLower (match strategy with
            | none => "balanced"
            | some t => if t = "" then "balanced" else t)
  if s = "fast" then first_available caps FAST_ORDER
  else if s = "max_ratio" then first_available caps MAX_RATIO_ORDER
  else first_available caps BALANCED_ORDER

end Api

open Api

/-- The spec's words for strategy selection: the first algorithm from the
preference list whose backend is compiled in (present in the registry). -/
def firstCompiledIn (order : List String) (caps : List BackendCapabilities) :
    Option String :=
  order.find? (fun n => caps.any (fun c => c.name = n))

namespace FileInspect

/-- The Python exceptions relevant to the embedded inspection code. -/
inductive PyError where
  | valueError (msg : String)
  | attributeError (msg : String)
deriving Repr, DecidableEq

/-- Outcome of a Python call: a returned value, or an uncaught exception. -/
inductive PyOutcome (α : Type) where
  | ok (val : α)
  | raised (err : PyError)
deriving Repr, DecidableEq

/-- What the filesystem yields for the inspected path: `path.is_file()` is
false, the open/read raises OSError, or the file's bytes.  `fileBytes`
carries the full content; the code itself reads only
`f.read(COMP_HEADER_STRUCT.size)`, i.e. the first 15 bytes. -/
inductive ReadOutcome where
  | notAFile
  | osError (msg : String)
  | fileBytes (content : List Nat)
deriving Repr, DecidableEq

/-- `struct.Struct("<4sBBBQ").size` from `inspect.py` line 13: the format
holds five fields (a 4-byte string, three single bytes and one
little-endian u64), 15 bytes in total. -/
def COMP_HEADER_STRUCT_size : Nat := 15

/-- The magic bytes b'COMP'. -/
def MAGIC : List Nat := [67, 79, 77, 80]

/-- `InspectResult` from `inspect.py`, without the `path` field: every
branch of `inspect` stores the inspected path unchanged, so it is threaded
outside the embedding. -/
structure InspectResult where
  is_compresso : Bool
  header_ok : Bool
  reason : Option String
  version : Option Nat
  algo_id : Option Nat
  algo_name : Option String
  level : Option Nat
  flags : Option Nat
  orig_size : Option Nat
  backend_available : Bool
  has_streaming : Bool
  can_decompress : Bool
  estimated_decomp_s : Option ℚ
deriving Repr, DecidableEq

/-- The failure record that `inspect` builds in its not-a-file, read-error,
too-small and bad-magic branches: everything false/None except the reason. -/
def failResult (reason : String) : InspectResult :=
  { is_compresso := false, header_ok := false, reason := some reason,
    version := none, algo_id := none, algo_name := none, level := none,
    flags := none, orig_size := none, backend_available := false,
    has_streaming := false, can_decompress := false,
    estimated_decomp_s := none }

/-- The placeholder decompression-speed table `_EST_MB_S` at the top of
`inspect.py` (lines 16-23), used by the estimate expression on lines
184-190. -/
def EST_MB_S : List (String × ℚ) :=
  [("zlib", 200), ("bzip2", 50), ("lzma", 30), ("zstd", 400), ("lz4", 800),
   ("snappy", 600)]

/-- Lines 138-207 of `inspect.py`, as they would run on unpacked header
fields `magic, version, algo_id, level, flags, orig_size`: the magic check,
the version check, the registry lookup and the final record.  When
`get_by_id` finds a capability record, line 175 evaluates
`cap.is_available()`; `BackendCapabilities` defines no such attribute, so
Python raises AttributeError there (and line 177's `cap.has_streaming`
would likewise fail: the field is named `has_stream`).  When no capability
is found, the and-expression short-circuits and the record is returned. -/
def inspectAfterUnpack (caps : List BackendCapabilities) (magic : List Nat)
    (version algo_id level flags orig_size : Nat) : PyOutcome InspectResult :=
  if magic ≠ MAGIC then
    .ok (failResult "Magic bytes do not match Compresso format")
  else if version ≠ 1 then
    .ok { is_compresso := true, header_ok := false,
          reason := some ("Unsupported header version: " ++ toString version),
          version := some version, algo_id := none, algo_name := none,
          level := none, flags := none, orig_size := none,
          backend_available := false, has_streaming := false,
          can_decompress := false, estimated_decomp_s := none }
  else
    match get_by_id caps algo_id with
    | some _cap =>
        .raised (.attributeError
          "BackendCapabilities object has no attribute is_available")
    | none =>
        .ok { is_compresso := true, header_ok := true,
              reason := some "No available backend for this algorithm",
              version := some version, algo_id := some algo_id,
              algo_name := none,
              level := if level = 255 then none else some level,
              flags := some flags, orig_size := some orig_size,
              backend_available := false, has_streaming := false,
              can_decompress := false, estimated_decomp_s := none }

/-- `inspect` from `inspect.py`.  After the is-file check, the read (only
the first 15 bytes are requested) and the length check, line 136 assigns
the tuple `COMP_HEADER_STRUCT.unpack(data)` to the six names
`magic, version, algo_id, level, flags, orig_size`; the struct format
"<4sBBBQ" yields only five values, so the assignment raises
ValueError("not enough values to unpack (expected 6, got 5)") and lines
138-207 (modelled by `inspectAfterUnpack`) are unreachable. -/
def inspect (caps : List BackendCapabilities) (outcome : ReadOutcome) :
    PyOutcome InspectResult :=
  match outcome with
  | .notAFile => .ok (failResult "Not a file")
  | .osError e => .ok (failResult ("Failed to read file: " ++ e))
  | .fileBytes content =>
      let data := content.take COMP_HEADER_STRUCT_size
      if data.length < COMP_HEADER_STRUCT_size then
        .ok (failResult "File too small to be a valid Compresso file")
      else
        .raised (.valueError "not enough values to unpack (expected 6, got 5)")

end FileInspect

namespace Speeds

/-- `_DEFAULT_COMP_MB_S` from `speeds.py`. -/
def DEFAULT_COMP_MB_S : List (String × ℚ) :=
  [("zlib", 200), ("bzip2", 50), ("lzma", 30), ("zstd", 400), ("lz4", 800),
   ("snappy", 600)]

/-- `_DEFAULT_DECOMP_MB_S` from `speeds.py`. -/
def DEFAULT_DECOMP_MB_S : List (String × ℚ) :=
  [("zlib", 250), ("bzip2", 60), ("lzma", 40), ("zstd", 500), ("lz4", 900),
   ("snappy", 700)]

/-- `AlgoSpeeds` from `speeds.py`. -/
structure AlgoSpeeds where
  algo : String
  comp_mb_s : ℚ
  decomp_mb_s : ℚ
  samples : Int
deriving Repr, DecidableEq

/-- The in-memory form of the speeds dict: algorithm name to entry. -/
def Db : Type := List (String × AlgoSpeeds)

/-- Python `db.get(k)` on the speeds dict. -/
def dbGet (db : Db) (k : String) : Option AlgoSpeeds :=
  (pyDictGetBy Prod.fst db k).map Prod.snd

/-- The Python exceptions that can escape `_load_raw`: UnicodeDecodeError
from `read_text("utf-8")` on non-UTF-8 bytes (a ValueError subclass that
`except (OSError, json.JSONDecodeError)` does not catch), and
AttributeError from `data.items()` on a top-level non-object JSON value or
from `entry.get` on a non-dict entry value (not caught by
`except (TypeError, ValueError)`). -/
inductive SpeedsError where
  | unicodeDecodeError
  | attributeError
deriving Repr, DecidableEq

/-- Outcome of a call into `speeds.py`: a value, or an uncaught exception. -/
inductive SpeedsOutcome (α : Type) where
  | ok (val : α)
  | raised (err : SpeedsError)
deriving Repr, DecidableEq

/-- One top-level value of the decoded speeds JSON object, as the entry
loop of `_load_raw` treats it: a non-dict value (on which `entry.get`
raises AttributeError), a dict whose field values fail float()/int()
coercion (TypeError/ValueError, caught, entry skipped), or a dict whose
fields coerce to the given numbers (a missing field defaults to
0.0/0.0/0). -/
inductive JsonEntry where
  | nonDict
  | badFields
  | fields (comp_mb_s decomp_mb_s : ℚ) (samples : Int)

/-- The state of the speeds file as `_load_raw`'s control flow
distinguishes it: absent (`is_file` false), unreadable (OSError), not
UTF-8 (UnicodeDecodeError), malformed JSON (json.JSONDecodeError), JSON
whose top level is not an object, or a JSON object with the given
entries. -/
inductive CacheFile where
  | missing
  | unreadable
  | notUtf8
  | malformed
  | nonObject
  | object (entries : List (String × JsonEntry))

/-- The entry loop of `_load_raw` (lines 61-71): build the result dict in
order; a non-dict entry value raises AttributeError out of the function, a
non-coercible dict entry is skipped, a coercible one is stored. -/
def load_entries : List (String × JsonEntry) → Db → SpeedsOutcome Db
  | [], acc => .ok acc
  | (algo, e) :: rest, acc =>
      match e with
      | .nonDict => .raised .attributeError
      | .badFields => load_entries rest acc
      | .fields comp decomp samples =>
          load_entries rest (pyDictSet acc algo ⟨algo, comp, decomp, samples⟩)

/-- `_load_raw` from `speeds.py`: a missing file, an OSError and malformed
JSON yield the empty dict; non-UTF-8 bytes and a top-level non-object
raise, since UnicodeDecodeError and AttributeError match neither except
clause; otherwise the entry loop runs. -/
def load_raw : CacheFile → SpeedsOutcome Db
  | .missing => .ok []
  | .unreadable => .ok []
  | .notUtf8 => .raised .unicodeDecodeError
  | .malformed => .ok []
  | .nonObject => .raised .attributeError
  | .object entries => load_entries entries []

/-- Python `table.get(algo, 200.0)` on a default-speed table. -/
def tableGetD (t : List (String × ℚ)) (k : String) (d : ℚ) : ℚ :=
  ((pyDictGetBy Prod.fst t k).map Prod.snd).getD d

/-- The final two lines of `get_estimated_speeds`: the built-in default for
the requested operation, 200.0 for an algorithm not in the table. -/
def defaultSpeed (operation algo : String) : ℚ :=
  if operation = "compress" then tableGetD DEFAULT_COMP_MB_S algo 200
  else tableGetD DEFAULT_DECOMP_MB_S algo 200

/-- `get_estimated_speeds` from `speeds.py`: lower-case the algorithm, call
`_load_raw` (whose uncaught exceptions propagate), return the cached
positive speed for the operation when there is one, and fall through to
the built-in defaults otherwise. -/
def get_estimated_speeds (file : CacheFile) (algo : String)
    (operation : String) : SpeedsOutcome ℚ :=
  let a := pyLower algo
  match load_raw file with
  | .raised e => .raised e
  | .ok db =>
      match dbGet db a with
      | some entry =>
          if operation = "compress" then
            if 0 < entry.comp_mb_s then .ok entry.comp_mb_s
            else .ok (defaultSpeed operation a)
          else
            if 0 < entry.decomp_mb_s then .ok entry.decomp_mb_s
            else .ok (defaultSpeed operation a)
      | none => .ok (defaultSpeed operation a)

/-- A benchmark result as `update_from_benchmarks` reads it through
`getattr(result, ..., None)`: each attribute may be absent (None). -/
structure BenchResult where
  algo : Option String
  comp_mb_s : Option ℚ
  decomp_mb_s : Option ℚ
deriving Repr, DecidableEq

/-- One per-algorithm accumulator of `update_from_benchmarks`. -/
structure Agg where
  comp_sum : ℚ
  decomp_sum : ℚ
  count : Nat
deriving Repr, DecidableEq

/-- One iteration of the first loop of `update_from_benchmarks` (lines
106-121): skip a result with a falsy algo (None or empty), read the speeds
with `float(getattr(...) or 0.0)`, skip non-positive speeds, then
`setdefault` the accumulator and add the sample. -/
def accumStep (acc : List (String × Agg)) (r : BenchResult) :
    List (String × Agg) :=
  match r.algo with
  | none => acc
  | some a =>
      if a = "" then acc
      else
        let comp := r.comp_mb_s.getD 0
        let decomp := r.decomp_mb_s.getD 0
        if comp ≤ 0 ∨ decomp ≤ 0 then acc
        else
          match pyDictGetBy Prod.fst acc a with
          | some p =>
              acc.map (fun q =>
                if q.1 = a then
                  (a, ⟨p.2.comp_sum + comp, p.2.decomp_sum + decomp,
                       p.2.count + 1⟩)
                else q)
          | none => acc ++ [(a, ⟨comp, decomp, 1⟩)]

/-- The accumulation loop of `update_from_benchmarks` over all results. -/
def accumulate (results : List BenchResult) : List (String × Agg) :=
  results.foldl accumStep []

/-- One iteration of the second loop of `update_from_benchmarks` (lines
126-152): compute the new averages and either store them as a fresh entry
(no prior entry, or prior sample count non-positive) or combine them with
the prior entry by the sample-count-weighted average. -/
def updateEntry (db : Db) (p : String × Agg) : Db :=
  let algo := p.1
  let stats := p.2
  let new_count := stats.count
  let new_comp_avg := stats.comp_sum / (new_count : ℚ)
  let new_decomp_avg := stats.decomp_sum / (new_count : ℚ)
  match dbGet db algo with
  | none =>
      pyDictSet db algo ⟨algo, new_comp_avg, new_decomp_avg, (new_count : Int)⟩
  | some old =>
      if old.samples ≤ 0 then
        pyDictSet db algo ⟨algo, new_comp_avg, new_decomp_avg, (new_count : Int)⟩
      else
        let total_samples := old.samples + (new_count : Int)
        pyDictSet db algo ⟨algo,
          (old.comp_mb_s * (old.samples : ℚ) + new_comp_avg * (new_count : ℚ))
            / (total_samples : ℚ),
          (old.decomp_mb_s * (old.samples : ℚ) + new_decomp_avg * (new_count : ℚ))
            / (total_samples : ℚ),
          total_samples⟩

/-- `update_from_benchmarks` from `speeds.py`, with the persisted state
passed and returned explicitly: `existing` is what `_load_raw` produced,
`none` means the function returned at line 124 without calling `_save_raw`
(the persisted cache is unchanged), and `some db` means `_save_raw db` was
called. -/
def update_from_benchmarks (existing : Db) (results : List BenchResult) :
    Option Db :=
  let accumulated := accumulate results
  if accumulated.isEmpty then none
  else some (accumulated.foldl updateEntry existing)

/-- Sum of the (defaulted) compression speeds of a result list. -/
def sumComp (results : List BenchResult) : ℚ :=
  (results.map (fun r => r.comp_mb_s.getD 0)).sum

/-- Sum of the (defaulted) decompression speeds of a result list. -/
def sumDecomp (results : List BenchResult) : ℚ :=
  (results.map (fun r => r.decomp_mb_s.getD 0)).sum

/-- A benchmark result that the accumulation loop keeps for algorithm `a`:
its algo attribute is `a` and both speeds are present and positive. -/
abbrev validSample (a : String) (r : BenchResult) : Prop :=
  r.algo = some a ∧ 0 < r.comp_mb_s.getD 0 ∧ 0 < r.decomp_mb_s.getD 0

end Speeds

/-! ## Theorems -/

theorem pyDictGetBy_isSome {α κ : Type} [DecidableEq κ] (key : α → κ)
    (xs : List α) (k : κ) :
    (pyDictGetBy key xs k).isSome = xs.any (fun x => decide (key x = k)) := by
  suffices h : ∀ acc : Option α,
      (xs.foldl (fun acc x => if key x = k then some x else acc) acc).isSome
        = (acc.isSome || xs.any (fun x => decide (key x = k))) by
    simpa [pyDictGetBy] using h none
  induction xs with
  | nil => intro acc; simp
  | cons x xs ih =>
      intro acc
      by_cases hx : key x = k
      · simp [hx, ih]
      · simp [hx, ih, List.any_cons]

theorem pyDictGetBy_foldl_aux {α κ : Type} [DecidableEq κ] (key : α → κ)
    (k : κ) (x : α) :
    ∀ (xs : List α) (acc : Option α),
      xs.foldl (fun acc y => if key y = k then some y else acc) acc = some x →
      (key x = k ∧ x ∈ xs) ∨ acc = some x := by
  intro xs
  induction xs with
  | nil =>
      intro acc h
      exact Or.inr (by simpa using h)
  | cons y ys ih =>
      intro acc h
      rw [List.foldl_cons] at h
      rcases ih _ h with h' | h'
      · exact Or.inl ⟨h'.1, List.mem_cons_of_mem _ h'.2⟩
      · by_cases hy : key y = k
        · rw [if_pos hy] at h'
          injection h' with h''
          subst h''
          exact Or.inl ⟨hy, List.mem_cons_self y ys⟩
        · rw [if_neg hy] at h'
          exact Or.inr h'

theorem pyDictGetBy_key {α κ : Type} [DecidableEq κ] (key : α → κ)
    (xs : List α) (k : κ) (x : α) (hx : pyDictGetBy key xs k = some x) :
    key x = k ∧ x ∈ xs := by
  rcases pyDictGetBy_foldl_aux key k x xs none hx with h' | h'
  · exact h'
  · simp at h'

theorem first_available_eq_firstCompiledIn (caps : List BackendCapabilities)
    (order : List String) :
    first_available caps order = firstCompiledIn order caps := by
  induction order with
  | nil => rfl
  | cons n rest ih =>
      unfold first_available firstCompiledIn
      rw [pyDictGetBy_isSome]
      by_cases h : caps.any (fun c => decide (c.name = n))
      · simp_all [firstCompiledIn]
      · simp_all [firstCompiledIn]

/-- Claim C3 is refuted: a query differing only in ASCII letter case from a
registered backend name is not found.  With the six standard backends
registered, looking up "ZLIB" returns nothing although "ZLIB" lower-cases to
the registered name "zlib", which is found by an exact-case query. -/
theorem C3_counterexample_case_insensitive_lookup :
    get_by_name allSixCaps "ZLIB" = none ∧
    pyLower "ZLIB" = "zlib" ∧
    (get_by_name allSixCaps "zlib").isSome := by decide

/-- Claim C3 (amended): backend lookup by name is a case-sensitive exact
match: the lookup succeeds exactly when some registered backend has the query
string as its name, character for character, and any returned record is a
registered one whose name equals the query exactly. -/
theorem C3_get_by_name_exact_match (caps : List BackendCapabilities)
    (s : String) :
    ((get_by_name caps s).isSome ↔ ∃ c ∈ caps, c.name = s) ∧
    (∀ c, get_by_name caps s = some c → c.name = s ∧ c ∈ caps) := by
  constructor
  · rw [get_by_name, pyDictGetBy_isSome]
    simp [List.any_eq_true]
  · intro c hc
    exact pyDictGetBy_key _ _ _ _ hc

/-- Witness for the amended claim C3 at a concrete registry and query. -/
theorem C3_get_by_name_exact_match_witness :
    (⟨"zlib", 1, true, true⟩ : BackendCapabilities).name = "zlib" ∧
    (⟨"zlib", 1, true, true⟩ : BackendCapabilities) ∈ allSixCaps :=
  (C3_get_by_name_exact_match allSixCaps "zlib").2 _ (by decide)

/-- Claim C4: strategy-based backend selection follows the fixed preference
orders (fast: lz4, snappy, zstd, zlib, bzip2, lzma; balanced: zstd, zlib,
bzip2, lzma, lz4, snappy; max_ratio: bzip2, lzma, zstd, zlib, lz4, snappy);
for every registry it returns the first algorithm of the chosen strategy list
whose backend is present, or nothing if none is; with all six present, fast
selects lz4, balanced selects zstd, max_ratio selects bzip2, and removing the
top choice yields the next in the list. -/
theorem C4_strategy_selection :
    (∀ caps : List BackendCapabilities,
        choose_backend_for_strategy caps (some "fast")
          = firstCompiledIn FAST_ORDER caps ∧
        choose_backend_for_strategy caps (some "balanced")
          = firstCompiledIn BALANCED_ORDER caps ∧
        choose_backend_for_strategy caps (some "max_ratio")
          = firstCompiledIn MAX_RATIO_ORDER caps) ∧
    choose_backend_for_strategy allSixCaps (some "fast") = some "lz4" ∧
    choose_backend_for_strategy allSixCaps (some "balanced") = some "zstd" ∧
    choose_backend_for_strategy allSixCaps (some "max_ratio") = some "bzip2" ∧
    choose_backend_for_strategy
        (allSixCaps.filter (fun c => c.name ≠ "lz4")) (some "fast")
      = some "snappy" ∧
    choose_backend_for_strategy
        (allSixCaps.filter (fun c => c.name ≠ "zstd")) (some "balanced")
      = some "zlib" ∧
    choose_backend_for_strategy
        (allSixCaps.filter (fun c => c.name ≠ "bzip2")) (some "max_ratio")
      = some "lzma" := by
  refine ⟨fun caps => ⟨?_, ?_, ?_⟩, by decide, by decide, by decide,
    by decide, by decide, by decide⟩
  · have h : pyLower "fast" = "fast" := by decide
    simp [choose_backend_for_strategy, h, first_available_eq_firstCompiledIn]
  · have h : pyLower "balanced" = "balanced" := by decide
    simp [choose_backend_for_strategy, h, first_available_eq_firstCompiledIn]
  · have h : pyLower "max_ratio" = "max_ratio" := by decide
    simp [choose_backend_for_strategy, h, first_available_eq_firstCompiledIn]

open FileInspect

/-- Claim C1 is refuted by the code: for a nonexistent path, an unreadable
file and a short file the inspector does return an InspectResult with
is_compresso=false and a reason, but on any file of at least 15 bytes —
a well-formed container included — line 136 of inspect.py raises ValueError,
because the struct format "<4sBBBQ" yields five values that are assigned to
six names. -/
theorem C1_inspect_raises_on_well_formed_container :
    inspect allSixCaps .notAFile = .ok (failResult "Not a file") ∧
    inspect allSixCaps (.osError "denied")
      = .ok (failResult "Failed to read file: denied") ∧
    inspect allSixCaps (.fileBytes [67, 79, 77, 80])
      = .ok (failResult "File too small to be a valid Compresso file") ∧
    inspect allSixCaps
        (.fileBytes [67, 79, 77, 80, 1, 4, 255, 0, 12, 0, 0, 0, 0, 0, 0, 0])
      = .raised (.valueError
          "not enough values to unpack (expected 6, got 5)") := by
  decide

/-- Claim C2 is refuted by the code: on a container for a registered backend
the inspector raises ValueError at the header unpacking, so
estimated_decomp_s is never computed; and even past that point, the
availability check of line 175 raises AttributeError before the estimate
expression runs.  The estimate expression itself (lines 184-190) draws from
the module-local placeholder table, which differs from the decompression
default table of speeds.py that the claim names. -/
theorem C2_estimate_never_computed :
    inspect allSixCaps
        (.fileBytes [67, 79, 77, 80, 1, 1, 255, 0, 0, 0, 16, 0, 0, 0, 0, 0])
      = .raised (.valueError
          "not enough values to unpack (expected 6, got 5)") ∧
    inspectAfterUnpack allSixCaps MAGIC 1 1 255 0 1048576
      = .raised (.attributeError
          "BackendCapabilities object has no attribute is_available") ∧
    EST_MB_S ≠ Speeds.DEFAULT_DECOMP_MB_S := by
  decide

/-- Claim C5 is partly refuted by the code: the too-small check behaves as
claimed for every registry, but a file of 15 or more bytes never reaches the
magic or version checks: the header unpacking of line 136 raises ValueError
first, here shown on 15 bytes whose magic is not COMP. -/
theorem C5_magic_check_unreachable :
    (∀ caps : List BackendCapabilities,
        inspect caps (.fileBytes [0])
          = .ok (failResult "File too small to be a valid Compresso file")) ∧
    (∀ caps : List BackendCapabilities,
        inspect caps (.fileBytes (List.replicate 15 0))
          = .raised (.valueError
              "not enough values to unpack (expected 6, got 5)")) := by
  constructor <;> (intro caps; rfl)

/-- Claim C6 is refuted by the code as a whole — a container with an
unregistered algo_id makes inspect raise ValueError at the header unpacking,
like every other 15-byte file — while the downstream logic of lines 138-207,
had the unpacking succeeded, would surface the header fields with
backend_available=false, algo_name=None, has_streaming=false,
can_decompress=false, a reason and no time estimate, exactly as claimed. -/
theorem C6_unknown_algo_id :
    (inspect allSixCaps
        (.fileBytes [67, 79, 77, 80, 1, 99, 3, 0, 5, 0, 0, 0, 0, 0, 0, 0])
      = .raised (.valueError
          "not enough values to unpack (expected 6, got 5)")) ∧
    (∀ (caps : List BackendCapabilities) (aid level flags orig_size : Nat),
        get_by_id caps aid = none →
        inspectAfterUnpack caps MAGIC 1 aid level flags orig_size
          = .ok { is_compresso := true, header_ok := true,
                  reason := some "No available backend for this algorithm",
                  version := some 1, algo_id := some aid, algo_name := none,
                  level := if level = 255 then none else some level,
                  flags := some flags, orig_size := some orig_size,
                  backend_available := false, has_streaming := false,
                  can_decompress := false, estimated_decomp_s := none }) := by
  refine ⟨by decide, ?_⟩
  intro caps aid level flags orig_size h
  simp [inspectAfterUnpack, h]

/-- Witness for the universally quantified part of the C6 theorem, at a
registry without algo id 99. -/
theorem C6_unknown_algo_id_witness :
    inspectAfterUnpack allSixCaps MAGIC 1 99 3 0 5
      = .ok { is_compresso := true, header_ok := true,
              reason := some "No available backend for this algorithm",
              version := some 1, algo_id := some 99, algo_name := none,
              level := some 3, flags := some 0, orig_size := some 5,
              backend_available := false, has_streaming := false,
              can_decompress := false, estimated_decomp_s := none } :=
  C6_unknown_algo_id.2 allSixCaps 99 3 0 5 (by decide)

/-- Claim C7: the outcome of inspection depends only on the first 15 bytes
of the file: the code requests only COMP_HEADER_STRUCT.size bytes, so two
files agreeing on their first 15 bytes produce the same outcome (the same
record, or the same raised error), whatever the payload holds. -/
theorem C7_inspect_reads_only_header (caps : List BackendCapabilities)
    (c1 c2 : List Nat) (h : c1.take 15 = c2.take 15) :
    inspect caps (.fileBytes c1) = inspect caps (.fileBytes c2) := by
  simp only [inspect, COMP_HEADER_STRUCT_size, h]

/-- Witness for C7: a bare 15-byte header and the same header followed by a
payload byte inspect identically. -/
theorem C7_inspect_reads_only_header_witness :
    inspect allSixCaps (.fileBytes (List.replicate 15 0))
      = inspect allSixCaps (.fileBytes (List.replicate 15 0 ++ [7])) :=
  C7_inspect_reads_only_header allSixCaps _ _ (by decide)

open Speeds

theorem pyDictGetBy_append_last {β : Type} (db : List (String × β))
    (k : String) (v : β) :
    pyDictGetBy Prod.fst (db ++ [(k, v)]) k = some (k, v) := by
  unfold pyDictGetBy
  rw [List.foldl_append]
  simp

theorem foldl_map_replace_no_key {β : Type} (k : String) (v : β) :
    ∀ (ps : List (String × β)) (acc : Option (String × β)),
      ps.any (fun p => p.1 = k) = false →
      (ps.map (fun p => if p.1 = k then (k, v) else p)).foldl
        (fun acc x => if x.1 = k then some x else acc) acc = acc := by
  intro ps
  induction ps with
  | nil => intro acc _; rfl
  | cons p ps ih =>
      intro acc h
      rw [List.any_cons, Bool.or_eq_false_iff] at h
      obtain ⟨h1, h2⟩ := h
      have h1' : ¬ p.1 = k := by simpa using h1
      rw [List.map_cons, List.foldl_cons, if_neg h1', if_neg h1']
      exact ih acc h2

theorem foldl_map_replace_key {β : Type} (k : String) (v : β) :
    ∀ (db : List (String × β)) (acc : Option (String × β)),
      db.any (fun p => p.1 = k) = true →
      (db.map (fun p => if p.1 = k then (k, v) else p)).foldl
        (fun acc x => if x.1 = k then some x else acc) acc = some (k, v) := by
  intro db
  induction db with
  | nil => intro acc h; simp at h
  | cons p ps ih =>
      intro acc h
      rw [List.map_cons, List.foldl_cons]
      by_cases hps : ps.any (fun p => p.1 = k) = true
      · exact ih _ hps
      · have hp : p.1 = k := by
          rw [List.any_cons, Bool.or_eq_true_iff] at h
          rcases h with h | h
          · simpa using h
          · exact absurd h hps
        rw [if_pos hp]
        have hstep : (if (k, v).1 = k then some (k, v) else acc) = some (k, v) := by
          simp
        rw [hstep]
        exact foldl_map_replace_no_key k v ps (some (k, v))
          (Bool.not_eq_true _ ▸ hps)

theorem pyDictGetBy_pyDictSet_self {β : Type} (db : List (String × β))
    (k : String) (v : β) :
    pyDictGetBy Prod.fst (pyDictSet db k v) k = some (k, v) := by
  unfold pyDictSet
  by_cases h : db.any (fun p => p.1 = k) = true
  · rw [if_pos h]
    simpa [pyDictGetBy] using foldl_map_replace_key k v db none h
  · rw [if_neg h]
    exact pyDictGetBy_append_last db k v

theorem dbGet_pyDictSet_self (db : Db) (k : String) (v : AlgoSpeeds) :
    dbGet (pyDictSet db k v) k = some v := by
  unfold dbGet
  rw [pyDictGetBy_pyDictSet_self]
  rfl

theorem accumStep_valid (a : String) (ha : a ≠ "") (agg : Agg)
    (r : BenchResult) (hr : validSample a r) :
    accumStep [(a, agg)] r
      = [(a, ⟨agg.comp_sum + r.comp_mb_s.getD 0,
              agg.decomp_sum + r.decomp_mb_s.getD 0, agg.count + 1⟩)] := by
  obtain ⟨h1, h2, h3⟩ := hr
  have hcond : ¬ (r.comp_mb_s.getD 0 ≤ 0 ∨ r.decomp_mb_s.getD 0 ≤ 0) := by
    push_neg
    exact ⟨h2, h3⟩
  simp [accumStep, h1, ha, hcond, pyDictGetBy]

theorem accumStep_first_valid (a : String) (ha : a ≠ "")
    (r : BenchResult) (hr : validSample a r) :
    accumStep [] r = [(a, ⟨r.comp_mb_s.getD 0, r.decomp_mb_s.getD 0, 1⟩)] := by
  obtain ⟨h1, h2, h3⟩ := hr
  have hcond : ¬ (r.comp_mb_s.getD 0 ≤ 0 ∨ r.decomp_mb_s.getD 0 ≤ 0) := by
    push_neg
    exact ⟨h2, h3⟩
  simp [accumStep, h1, ha, hcond, pyDictGetBy]

theorem foldl_accumStep_single (a : String) (ha : a ≠ "") :
    ∀ (results : List BenchResult) (agg : Agg),
      (∀ r ∈ results, validSample a r) →
      results.foldl accumStep [(a, agg)]
        = [(a, ⟨agg.comp_sum + sumComp results,
                agg.decomp_sum + sumDecomp results,
                agg.count + results.length⟩)] := by
  intro results
  induction results with
  | nil =>
      intro agg _
      simp [sumComp, sumDecomp]
  | cons r rs ih =>
      intro agg h
      rw [List.foldl_cons,
        accumStep_valid a ha agg r (h r (List.mem_cons_self r rs)),
        ih _ (fun x hx => h x (List.mem_cons_of_mem r hx))]
      simp only [sumComp, sumDecomp, List.map_cons, List.sum_cons,
        List.length_cons, List.cons.injEq, Prod.mk.injEq, Agg.mk.injEq,
        true_and, and_true]
      refine ⟨by ring, by ring, by omega⟩

theorem accumulate_all_valid (a : String) (ha : a ≠ "")
    (results : List BenchResult) (hne : results ≠ [])
    (h : ∀ r ∈ results, validSample a r) :
    accumulate results
      = [(a, ⟨sumComp results, sumDecomp results, results.length⟩)] := by
  match results with
  | [] => exact absurd rfl hne
  | r :: rs =>
      unfold accumulate
      rw [List.foldl_cons,
        accumStep_first_valid a ha r (h r (List.mem_cons_self r rs)),
        foldl_accumStep_single a ha rs _
          (fun x hx => h x (List.mem_cons_of_mem r hx))]
      simp only [sumComp, sumDecomp, List.map_cons, List.sum_cons,
        List.length_cons, List.cons.injEq, Prod.mk.injEq, Agg.mk.injEq,
        true_and, and_true]
      omega

theorem updateEntry_pair (db : Db) (a : String) (stats : Agg) :
    updateEntry db (a, stats)
      = match dbGet db a with
        | none =>
            pyDictSet db a ⟨a, stats.comp_sum / (stats.count : ℚ),
              stats.decomp_sum / (stats.count : ℚ), (stats.count : Int)⟩
        | some old =>
            if old.samples ≤ 0 then
              pyDictSet db a ⟨a, stats.comp_sum / (stats.count : ℚ),
                stats.decomp_sum / (stats.count : ℚ), (stats.count : Int)⟩
            else
              pyDictSet db a ⟨a,
                (old.comp_mb_s * (old.samples : ℚ)
                    + stats.comp_sum / (stats.count : ℚ) * (stats.count : ℚ))
                  / ((old.samples + (stats.count : Int) : Int) : ℚ),
                (old.decomp_mb_s * (old.samples : ℚ)
                    + stats.decomp_sum / (stats.count : ℚ) * (stats.count : ℚ))
                  / ((old.samples + (stats.count : Int) : Int) : ℚ),
                old.samples + (stats.count : Int)⟩ := rfl

/-- Claim C8: updating the cache from k valid samples for one algorithm with
an existing entry of n > 0 samples stores the sample-count-weighted average
(avg * n + new_avg * k) / (n + k) for both speeds and sets the stored count
to n + k; with no prior entry, or a non-positive prior count, it stores the
plain average of the new samples with count k. -/
theorem C8_weighted_average_update :
    (∀ (db : Db) (results : List BenchResult) (a : String) (old : AlgoSpeeds),
        a ≠ "" → (∀ r ∈ results, validSample a r) → results ≠ [] →
        dbGet db a = some old → 0 < old.samples →
        ∃ db', update_from_benchmarks db results = some db' ∧
          dbGet db' a = some ⟨a,
            (old.comp_mb_s * (old.samples : ℚ)
                + (sumComp results / (results.length : ℚ))
                  * (results.length : ℚ))
              / ((old.samples : ℚ) + (results.length : ℚ)),
            (old.decomp_mb_s * (old.samples : ℚ)
                + (sumDecomp results / (results.length : ℚ))
                  * (results.length : ℚ))
              / ((old.samples : ℚ) + (results.length : ℚ)),
            old.samples + (results.length : Int)⟩) ∧
    (∀ (db : Db) (results : List BenchResult) (a : String),
        a ≠ "" → (∀ r ∈ results, validSample a r) → results ≠ [] →
        (dbGet db a = none ∨ ∃ old, dbGet db a = some old ∧ old.samples ≤ 0) →
        ∃ db', update_from_benchmarks db results = some db' ∧
          dbGet db' a = some ⟨a, sumComp results / (results.length : ℚ),
            sumDecomp results / (results.length : ℚ),
            (results.length : Int)⟩) := by
  constructor
  · intro db results a old ha hvalid hne hold hpos
    have hacc := accumulate_all_valid a ha results hne hvalid
    refine ⟨updateEntry db
      (a, ⟨sumComp results, sumDecomp results, results.length⟩), ?_, ?_⟩
    · simp [update_from_benchmarks, hacc]
    · rw [updateEntry_pair, hold]
      simp only []
      rw [if_neg (not_le.mpr hpos), dbGet_pyDictSet_self]
      simp only [Option.some.injEq, AlgoSpeeds.mk.injEq, true_and, and_true]
      push_cast
      exact ⟨rfl, rfl⟩
  · intro db results a ha hvalid hne hfresh
    have hacc := accumulate_all_valid a ha results hne hvalid
    refine ⟨updateEntry db
      (a, ⟨sumComp results, sumDecomp results, results.length⟩), ?_, ?_⟩
    · simp [update_from_benchmarks, hacc]
    · rcases hfresh with h | ⟨old, hold, hle⟩
      · rw [updateEntry_pair, h, dbGet_pyDictSet_self]
      · rw [updateEntry_pair, hold]
        simp only []
        rw [if_pos hle, dbGet_pyDictSet_self]

/-- Witness for C8 at a concrete cache and sample: a zlib entry averaging
100/200 MB/s over 2 samples combined with one new 400/500 MB/s sample gives
(100*2+400)/3 = 200 and (200*2+500)/3 = 300 over 3 samples. -/
theorem C8_weighted_average_update_witness :
    ∃ db', update_from_benchmarks [("zlib", ⟨"zlib", 100, 200, 2⟩)]
        [⟨some "zlib", some 400, some 500⟩] = some db' ∧
      dbGet db' "zlib" = some ⟨"zlib", 200, 300, 3⟩ := by
  obtain ⟨db', h1, h2⟩ :=
    C8_weighted_average_update.1 [("zlib", ⟨"zlib", 100, 200, 2⟩)]
      [⟨some "zlib", some 400, some 500⟩] "zlib" ⟨"zlib", 100, 200, 2⟩
      (by decide) (by decide) (by decide) (by decide) (by decide)
  refine ⟨db', h1, ?_⟩
  rw [h2]
  norm_num [sumComp, sumDecomp]

/-- Claim C9 is refuted by the code: a corrupt speeds file can raise.  A
file of non-UTF-8 bytes raises UnicodeDecodeError out of read_text (a
ValueError subclass caught by neither except clause of _load_raw), a
top-level non-object JSON raises AttributeError at data.items(), and a
non-dict entry value raises AttributeError at entry.get — all escaping
get_estimated_speeds.  The dispositions the claim lists do otherwise hold:
an absent, unreadable (OSError) or malformed-JSON file, and a cache whose
entry has no positive speed for the operation, fall back to the built-in
default for every algorithm and operation. -/
theorem C9_corrupt_cache_raises :
    get_estimated_speeds .notUtf8 "zlib" "decompress"
      = .raised .unicodeDecodeError ∧
    get_estimated_speeds .nonObject "zlib" "decompress"
      = .raised .attributeError ∧
    get_estimated_speeds (.object [("zlib", .nonDict)]) "zlib" "decompress"
      = .raised .attributeError ∧
    get_estimated_speeds (.object [("zlib", .fields 100 0 3)])
        "zlib" "decompress"
      = .ok (defaultSpeed "decompress" (pyLower "zlib")) ∧
    ∀ algo operation : String,
      get_estimated_speeds .missing algo operation
        = .ok (defaultSpeed operation (pyLower algo)) ∧
      get_estimated_speeds .unreadable algo operation
        = .ok (defaultSpeed operation (pyLower algo)) ∧
      get_estimated_speeds .malformed algo operation
        = .ok (defaultSpeed operation (pyLower algo)) := by
  refine ⟨by decide, by decide, by decide, by decide,
    fun algo operation => ⟨rfl, rfl, rfl⟩⟩

theorem accumStep_ignored (acc : List (String × Agg)) (r : BenchResult)
    (h : r.algo = none ∨ r.comp_mb_s.getD 0 ≤ 0 ∨ r.decomp_mb_s.getD 0 ≤ 0) :
    accumStep acc r = acc := by
  cases hA : r.algo with
  | none => simp [accumStep, hA]
  | some a =>
      have hsp : r.comp_mb_s.getD 0 ≤ 0 ∨ r.decomp_mb_s.getD 0 ≤ 0 := by
        rcases h with h | h
        · rw [hA] at h
          cases h
        · exact h
      by_cases he : a = ""
      · simp [accumStep, hA, he]
      · simp [accumStep, hA, he, hsp]

theorem foldl_accumStep_ignored :
    ∀ (results : List BenchResult) (acc : List (String × Agg)),
      (∀ r ∈ results,
        r.algo = none ∨ r.comp_mb_s.getD 0 ≤ 0 ∨ r.decomp_mb_s.getD 0 ≤ 0) →
      results.foldl accumStep acc = acc := by
  intro results
  induction results with
  | nil => intro acc _; rfl
  | cons r rs ih =>
      intro acc h
      rw [List.foldl_cons, accumStep_ignored acc r (h r (List.mem_cons_self r rs))]
      exact ih acc (fun x hx => h x (List.mem_cons_of_mem r hx))

/-- Claim C10: the accumulation loop ignores every benchmark result whose
algorithm attribute is missing or whose compression or decompression speed
is missing, zero or negative; and when every result is ignored,
update_from_benchmarks returns without writing the speeds file (the `none`
outcome models the early return before `_save_raw`). -/
theorem C10_invalid_results_skipped :
    (∀ (acc : List (String × Agg)) (r : BenchResult),
        r.algo = none ∨ r.comp_mb_s.getD 0 ≤ 0 ∨ r.decomp_mb_s.getD 0 ≤ 0 →
        accumStep acc r = acc) ∧
    (∀ (db : Db) (results : List BenchResult),
        (∀ r ∈ results,
          r.algo = none ∨ r.comp_mb_s.getD 0 ≤ 0 ∨ r.decomp_mb_s.getD 0 ≤ 0) →
        update_from_benchmarks db results = none) := by
  refine ⟨accumStep_ignored, ?_⟩
  intro db results h
  unfold update_from_benchmarks accumulate
  rw [foldl_accumStep_ignored results [] h]
  rfl

/-- Witness for C10: a missing algo, a zero compression speed, a missing
decompression speed and a negative speed are all ignored, so nothing is
written. -/
theorem C10_invalid_results_skipped_witness :
    update_from_benchmarks [("zlib", ⟨"zlib", 100, 200, 2⟩)]
      [⟨none, some 5, some 5⟩, ⟨some "zlib", some 0, some 5⟩,
       ⟨some "zlib", some 5, none⟩, ⟨some "lz4", some 3, some (-2)⟩]
      = none :=
  C10_invalid_results_skipped.2 _ _ (by decide)

end Compresso
